import Mathlib

/-!
Verification of the GoMedCamp client-side resource/cost estimation and
heatmap projection logic (`CampResourceManagementPage.jsx` and
`OrganizerDashboard.jsx`), shallowly embedded in Lean 4.

JavaScript numbers are modelled by `JsNum`: an exact rational for every
finite value, plus `inf`, `neginf` and `nan`.  Dynamic field values are
modelled by `JsPrim`.  `none` stands for a missing/`null`/`undefined`
object where the code tests truthiness of a whole object.
-/

/-- A JavaScript primitive value as it appears in the fields this app
manipulates: a (finite) number, a string, a boolean, `null` or `undefined`. -/
inductive JsPrim where
  | num (q : ℚ)
  | str (s : String)
  | bool (b : Bool)
  | null
  | undef
deriving DecidableEq, Repr

/-- The result of JavaScript numeric operations: a finite number (exact
rational), positive or negative infinity, or `NaN`. -/
inductive JsNum where
  | fin (q : ℚ)
  | inf
  | neginf
  | nan
deriving DecidableEq, Repr

/-- JavaScript `+` on numbers. -/
def JsNum.add : JsNum → JsNum → JsNum
  | .nan, _ => .nan
  | _, .nan => .nan
  | .inf, .neginf => .nan
  | .neginf, .inf => .nan
  | .inf, _ => .inf
  | _, .inf => .inf
  | .neginf, _ => .neginf
  | _, .neginf => .neginf
  | .fin a, .fin b => .fin (a + b)

/-- JavaScript `-` on numbers. -/
def JsNum.sub : JsNum → JsNum → JsNum
  | .nan, _ => .nan
  | _, .nan => .nan
  | .inf, .inf => .nan
  | .neginf, .neginf => .nan
  | .inf, _ => .inf
  | .neginf, _ => .neginf
  | _, .inf => .neginf
  | _, .neginf => .inf
  | .fin a, .fin b => .fin (a - b)

/-- JavaScript `*` on numbers. -/
def JsNum.mul : JsNum → JsNum → JsNum
  | .nan, _ => .nan
  | _, .nan => .nan
  | .fin a, .fin b => .fin (a * b)
  | .inf, .fin b => if 0 < b then .inf else if b < 0 then .neginf else .nan
  | .fin a, .inf => if 0 < a then .inf else if a < 0 then .neginf else .nan
  | .neginf, .fin b => if 0 < b then .neginf else if b < 0 then .inf else .nan
  | .fin a, .neginf => if 0 < a then .neginf else if a < 0 then .inf else .nan
  | .inf, .inf => .inf
  | .inf, .neginf => .neginf
  | .neginf, .inf => .neginf
  | .neginf, .neginf => .inf

/-- JavaScript falsiness of a number: `NaN` and `0` are falsy. -/
def JsNum.falsy : JsNum → Bool
  | .fin q => decide (q = 0)
  | .nan => true
  | _ => false

/-- The `x || 0` idiom used throughout the cost code: a falsy number
(`NaN` or `0`) is replaced by `0`. -/
def JsNum.orZero (x : JsNum) : JsNum := if x.falsy then .fin 0 else x

/-- `true` exactly on `NaN`; models JavaScript `isNaN` on a number. -/
def JsNum.isNanB : JsNum → Bool
  | .nan => true
  | _ => false

/-- `true` exactly on the two infinities. -/
def JsNum.isInfB : JsNum → Bool
  | .inf => true
  | .neginf => true
  | _ => false

/-- `true` when the number is non-negative (`+Infinity` counts, `NaN` and
`-Infinity` do not). -/
def JsNum.nonnegB : JsNum → Bool
  | .fin q => decide (0 ≤ q)
  | .inf => true
  | _ => false

/-- The finite value of a `JsNum`, with every non-finite value collapsed
to `0` (the "non-numeric treated as 0" reading used by the spec). -/
def JsNum.toQ0 : JsNum → ℚ
  | .fin q => q
  | _ => 0

/-- `Math.round`: round half toward positive infinity on finite values;
infinities and `NaN` pass through. -/
def jsRound : JsNum → JsNum
  | .fin q => .fin ((⌊q + 1/2⌋ : ℤ) : ℚ)
  | x => x

/-- `Math.round` restricted to a finite argument, as an integer. -/
def jsRoundQ (q : ℚ) : ℤ := ⌊q + 1/2⌋

/-- `Math.max 0 x` as used in the heatmap intensity clamp (`NaN` is
propagated, as JavaScript `Math.max` does). -/
def jsMax0 : JsNum → JsNum
  | .nan => .nan
  | .inf => .inf
  | .neginf => .fin 0
  | .fin q => .fin (max 0 q)

/-- Decimal digit test. -/
def isDigitCh (c : Char) : Bool := '0' ≤ c && c ≤ '9'

/-- Value of one decimal digit character. -/
def digitVal (c : Char) : ℕ := c.toNat - '0'.toNat

/-- Accumulate a digit string into a natural number. -/
def digitsToNat (acc : ℕ) : List Char → ℕ
  | [] => acc
  | c :: cs => digitsToNat (acc * 10 + digitVal c) cs

/-- Optional leading sign of a JavaScript numeric literal: `true` when a
`-` sign was consumed. -/
def parseSign : List Char → Bool × List Char
  | '-' :: cs => (true, cs)
  | '+' :: cs => (false, cs)
  | cs => (false, cs)

/-- Does the character list start with the literal `Infinity`? -/
def isInfinityLit : List Char → Bool
  | 'I' :: 'n' :: 'f' :: 'i' :: 'n' :: 'i' :: 't' :: 'y' :: _ => true
  | _ => false

/-- Optional exponent part (`e`/`E`, optional sign, digits) of a float
literal; anything else contributes exponent `0`, as `parseFloat` stops at
the first unparsable character. -/
def parseExpPart (cs : List Char) : ℤ :=
  match cs with
  | c :: rest =>
    if c = 'e' ∨ c = 'E' then
      let sr : ℤ × List Char :=
        match rest with
        | '-' :: t => (-1, t)
        | '+' :: t => (1, t)
        | t => (1, t)
      let ds := sr.2.takeWhile isDigitCh
      if ds.isEmpty then 0 else sr.1 * (digitsToNat 0 ds : ℤ)
    else 0
  | [] => 0

/-- JavaScript `parseFloat` on a character list: skip leading whitespace,
optional sign, then either the `Infinity` literal or the longest prefix of
the form `digits[.digits][(e|E)[sign]digits]`; no digits at all gives
`NaN`. -/
def parseFloatChars (cs0 : List Char) : JsNum :=
  let cs1 := cs0.dropWhile Char.isWhitespace
  let sc := parseSign cs1
  if isInfinityLit sc.2 then
    if sc.1 then .neginf else .inf
  else
    let intDs := sc.2.takeWhile isDigitCh
    let rest := sc.2.dropWhile isDigitCh
    let fr : List Char × List Char :=
      match rest with
      | '.' :: t => (t.takeWhile isDigitCh, t.dropWhile isDigitCh)
      | t => ([], t)
    if intDs.isEmpty ∧ fr.1.isEmpty then .nan
    else
      let mant : ℚ := (digitsToNat 0 intDs : ℚ) + (digitsToNat 0 fr.1 : ℚ) / (10 : ℚ) ^ fr.1.length
      .fin ((if sc.1 then -1 else 1) * mant * (10 : ℚ) ^ parseExpPart fr.2)

/-- JavaScript `parseInt(s, 10)` on a character list: skip leading
whitespace, optional sign, then the longest decimal-digit prefix; empty
prefix gives `NaN`. -/
def parseIntChars (cs0 : List Char) : JsNum :=
  let cs1 := cs0.dropWhile Char.isWhitespace
  let sc := parseSign cs1
  let ds := sc.2.takeWhile isDigitCh
  if ds.isEmpty then .nan
  else .fin ((if sc.1 then -1 else 1) * (digitsToNat 0 ds : ℕ))

/-- JavaScript `parseFloat` on a primitive: numbers round-trip through
their decimal string form (identity for the finite values this app
handles); `undefined`, `null` and booleans stringify to non-numeric
text, hence `NaN`. -/
def jsParseFloat : JsPrim → JsNum
  | .num q => .fin q
  | .str s => parseFloatChars s.data
  | _ => .nan

/-- JavaScript `parseInt(x, 10)` on a primitive: a number is stringified
and re-parsed, which truncates its decimal form toward zero (modelled as
rational truncation; exact for the non-exponential-form magnitudes this
app handles); non-numeric text gives `NaN`. -/
def jsParseInt : JsPrim → JsNum
  | .num q => .fin ((Int.tdiv q.num (q.den : ℤ) : ℤ) : ℚ)
  | .str s => parseIntChars s.data
  | _ => .nan

/-- JavaScript truthiness of a primitive. -/
def JsPrim.truthy : JsPrim → Bool
  | .num q => decide (q ≠ 0)
  | .str s => decide (s ≠ "")
  | .bool b => b
  | .null => false
  | .undef => false

/-- Is `y` a Gregorian leap year? -/
def isLeapYear (y : ℤ) : Bool := (y % 4 = 0 ∧ y % 100 ≠ 0) ∨ y % 400 = 0

/-- Number of days in month `m` of year `y`. -/
def daysInMonth (y : ℤ) (m : ℕ) : ℕ :=
  if m = 2 then (if isLeapYear y then 29 else 28)
  else if m = 4 ∨ m = 6 ∨ m = 9 ∨ m = 11 then 30 else 31

/-- Days from the Unix epoch (1970-01-01) to the civil date `y-m-d`
(proleptic Gregorian), by the standard era decomposition.  All interior
divisions act on non-negative operands, so truncating integer division
agrees with the mathematical floor the algorithm needs. -/
def daysFromCivil (y : ℤ) (m : ℕ) (d : ℕ) : ℤ :=
  let y' := if m ≤ 2 then y - 1 else y
  let era : ℤ := (if 0 ≤ y' then y' else y' - 399) / 400
  let yoe : ℤ := y' - era * 400
  let mp : ℤ := ((m : ℤ) + 9) % 12
  let doy : ℤ := (153 * mp + 2) / 5 + (d : ℤ) - 1
  let doe : ℤ := yoe * 365 + yoe / 4 - yoe / 100 + doy
  era * 146097 + doe - 719468

/-- `Date.parse` for the date strings this app exchanges: a strict
`YYYY-MM-DD` form parses to the UTC-midnight epoch-millisecond value;
out-of-range components or any other shape give an invalid date
(`none`, standing for `NaN`). -/
def parseISODateMs (s : String) : Option ℤ :=
  match s.data with
  | [y1, y2, y3, y4, '-', m1, m2, '-', d1, d2] =>
    if ([y1, y2, y3, y4, m1, m2, d1, d2].all isDigitCh) then
      let y : ℤ := (digitsToNat 0 [y1, y2, y3, y4] : ℕ)
      let m : ℕ := digitsToNat 0 [m1, m2]
      let d : ℕ := digitsToNat 0 [d1, d2]
      if 1 ≤ m ∧ m ≤ 12 ∧ 1 ≤ d ∧ d ≤ daysInMonth y m then
        some (daysFromCivil y m d * 86400000)
      else none
    else none
  | _ => none

/-- `new Date(x).getTime()` for the value shapes this app passes: an ISO
date string parses per `parseISODateMs`; a number is a time value
(truncated, clipped at ±8.64e15); booleans coerce to 0/1; anything else is
an invalid date.  `none` stands for `NaN`. -/
def jsDateMs : JsPrim → Option ℤ
  | .str s => parseISODateMs s
  | .num q =>
    let t : ℤ := Int.tdiv q.num (q.den : ℤ)
    if t.natAbs ≤ 8640000000000000 then some t else none
  | .bool b => some (if b then 1 else 0)
  | _ => none

/-- Camp details as used by the duration computation: the two date fields
fetched from the backend. -/
structure CampDetails where
  start_date : JsPrim
  end_date : JsPrim
deriving DecidableEq, Repr

/-- `calculateCampDurationDays` from `CampResourceManagementPage.jsx`:
when `campDetails` and both date fields are truthy, the duration is
`Math.ceil(Math.abs(end - start) / 86400000) + 1` (an invalid date makes
the whole chain `NaN`, and `NaN > 0` is false, so the guard falls back to
1); otherwise 1. -/
def calculateCampDurationDays (campDetails : Option CampDetails) : ℤ :=
  match campDetails with
  | some cd =>
    if cd.start_date.truthy && cd.end_date.truthy then
      match jsDateMs cd.start_date, jsDateMs cd.end_date with
      | some s, some e =>
        let diffTime : ℤ := |e - s|
        let diffDays : ℤ := ⌈(diffTime : ℚ) / (1000 * 60 * 60 * 24)⌉ + 1
        if 0 < diffDays then diffDays else 1
      | _, _ => 1
    else 1
  | none => 1

/-- The per-unit placeholder costs structure (`placeholderCosts` in the
source); kept as a parameter `UnitCosts` so the estimation is stated for
every unit-cost assignment. -/
structure UnitCosts where
  staffPerDay : ℚ
  medicinePerUnit : ℚ
  equipmentPerItem : ℚ
deriving DecidableEq, Repr

/-- The literal `placeholderCosts` of the source. -/
def placeholderCosts : UnitCosts :=
  { staffPerDay := 50, medicinePerUnit := 2, equipmentPerItem := 75 }

/-- A staff line item (`newStaff` shape), plus the optional temporary id
attached on add. -/
structure StaffEntry where
  name : String
  role : String
  origin : String
  contact : String
  notes : String
  id : Option String := none
deriving DecidableEq, Repr

/-- A medicine line item (`newMedicine` shape); `quantityPerPatient`
arrives from a text input or the backend, hence a dynamic primitive. -/
structure MedicineEntry where
  name : String
  unit : String
  quantityPerPatient : JsPrim
  notes : String
  id : Option String := none
deriving DecidableEq, Repr

/-- An equipment line item (`newEquipment` shape). -/
structure EquipmentEntry where
  name : String
  quantity : JsPrim
  notes : String
  id : Option String := none
deriving DecidableEq, Repr

/-- The derived estimate state (`estimatedCost`): `Math.round` results,
kept as `JsNum` because the base can be non-finite for degenerate
inputs. -/
structure CostEstimate where
  min : JsNum
  max : JsNum
deriving DecidableEq, Repr

/-- `staffCost`: `staffList.reduce((total) => total + staffPerDay * durationDays, 0)`.
Every operand is a finite number, so this stays in `ℚ`. -/
def staffCost (uc : UnitCosts) (staffList : List StaffEntry) (durationDays : ℤ) : ℚ :=
  staffList.foldl (fun total _ => total + uc.staffPerDay * (durationDays : ℚ)) 0

/-- `medicineCost`: fold of
`total + (parseFloat(med.quantityPerPatient) || 0) * (parseInt(targetPatients, 10) || 0) * medicinePerUnit`. -/
def medicineCostJs (uc : UnitCosts) (medicineList : List MedicineEntry)
    (targetPatients : JsPrim) : JsNum :=
  medicineList.foldl
    (fun total med =>
      let qty := (jsParseFloat med.quantityPerPatient).orZero
      let numPatients := (jsParseInt targetPatients).orZero
      total.add ((qty.mul numPatients).mul (.fin uc.medicinePerUnit)))
    (.fin 0)

/-- `equipmentCost`: fold of
`total + (parseInt(equip.quantity, 10) || 0) * equipmentPerItem`. -/
def equipmentCostJs (uc : UnitCosts) (equipmentList : List EquipmentEntry) : JsNum :=
  equipmentList.foldl
    (fun total equip =>
      let qty := (jsParseInt equip.quantity).orZero
      total.add (qty.mul (.fin uc.equipmentPerItem)))
    (.fin 0)

/-- `totalBaseCost = staffCost + medicineCost + equipmentCost` with the
duration derived from the camp details. -/
def totalBaseCost (uc : UnitCosts) (staffList : List StaffEntry)
    (medicineList : List MedicineEntry) (equipmentList : List EquipmentEntry)
    (targetPatients : JsPrim) (campDetails : Option CampDetails) : JsNum :=
  let durationDays := calculateCampDurationDays campDetails
  ((JsNum.fin (staffCost uc staffList durationDays)).add
      (medicineCostJs uc medicineList targetPatients)).add
    (equipmentCostJs uc equipmentList)

/-- `calculateEstimatedCost` from `CampResourceManagementPage.jsx`:
`min = Math.round(totalBaseCost * 0.85)`, `max = Math.round(totalBaseCost * 1.15)`. -/
def calculateEstimatedCost (uc : UnitCosts) (staffList : List StaffEntry)
    (medicineList : List MedicineEntry) (equipmentList : List EquipmentEntry)
    (targetPatients : JsPrim) (campDetails : Option CampDetails) : CostEstimate :=
  let base := totalBaseCost uc staffList medicineList equipmentList targetPatients campDetails
  { min := jsRound (base.mul (.fin (85 / 100)))
    max := jsRound (base.mul (.fin (115 / 100))) }

/-- A GeoJSON-like geometry: `coordinates` is `none` when the field is
`null`/`undefined`, otherwise the (possibly empty, possibly non-numeric)
coordinate array. -/
structure Geometry where
  coordinates : Option (List JsPrim)
deriving DecidableEq, Repr

/-- The feature properties object; only `value` is consulted. -/
structure FeatureProps where
  value : JsPrim
deriving DecidableEq, Repr

/-- A fetched heatmap feature; `none` geometry/properties stands for a
missing/`null` object. -/
structure Feature where
  geometry : Option Geometry
  properties : Option FeatureProps
deriving DecidableEq, Repr

/-- An entry of `selectableIndicators` in `OrganizerDashboard.jsx`; a
missing `invert` field is falsy, hence `Bool`. -/
structure IndicatorDetail where
  key : String
  label : String
  invert : Bool
deriving DecidableEq, Repr

/-- `feature.geometry.coordinates` as an optional array. -/
def Feature.coordsOpt (f : Feature) : Option (List JsPrim) :=
  match f.geometry with
  | some g => g.coordinates
  | none => none

/-- `feature.properties.value`, when `properties` is present. -/
def Feature.valueOpt (f : Feature) : Option JsPrim :=
  match f.properties with
  | some p => some p.value
  | none => none

/-- The filter of `fetchHeatmapData`:
`feature.geometry && feature.geometry.coordinates && feature.properties
&& feature.properties.value != null && !isNaN(parseFloat(feature.properties.value))`.
The loose `!= null` excludes both `null` and `undefined`; an array (even
an empty one) is truthy. -/
def keepFeature (f : Feature) : Bool :=
  f.geometry.isSome && f.coordsOpt.isSome && f.properties.isSome &&
    (match f.valueOpt with
     | some v => !decide (v = JsPrim.null) && !decide (v = JsPrim.undef) &&
         !(jsParseFloat v).isNanB
     | none => false)

/-- Indexing `feature.geometry.coordinates[i]`; a missing element is
JavaScript `undefined`. -/
def coordAt (g : Option Geometry) (i : ℕ) : JsPrim :=
  match g with
  | some geo =>
    match geo.coordinates with
    | some cs => cs.getD i JsPrim.undef
    | none => JsPrim.undef
  | none => JsPrim.undef

/-- The intensity computation of the map step:
`let intensity = parseFloat(value); if (indicatorDetail && indicatorDetail.invert)
{ intensity = 100 - intensity; intensity = Math.max(0, intensity); }`. -/
def emitIntensity (indicatorDetail : Option IndicatorDetail) (raw : JsNum) : JsNum :=
  match indicatorDetail with
  | some d => if d.invert then jsMax0 ((JsNum.fin 100).sub raw) else raw
  | none => raw

/-- The map step of `fetchHeatmapData`: emit
`[coordinates[1], coordinates[0], intensity]`. -/
def emitSample (indicatorDetail : Option IndicatorDetail) (f : Feature) :
    JsPrim × JsPrim × JsNum :=
  (coordAt f.geometry 1, coordAt f.geometry 0,
    emitIntensity indicatorDetail (jsParseFloat (f.valueOpt.getD JsPrim.undef)))

/-- The full `processedData` pipeline of `fetchHeatmapData`:
`geoJsonData.features.filter(...).map(...)` (the enclosing
`features.length > 0` guard sets `[]`, which coincides with the pipeline
on an empty list). -/
def processHeatmapFeatures (geoFeatures : List Feature)
    (indicatorDetail : Option IndicatorDetail) : List (JsPrim × JsPrim × JsNum) :=
  (geoFeatures.filter keepFeature).map (emitSample indicatorDetail)

/-- The temporary id attached on add: `temp-${Date.now()}`, with the
clock reading passed in as `now`. -/
def tempId (now : ℕ) : String := "temp-" ++ toString now

/-- The `staff` branch of `addItem`: append the draft with a temp id when
its `name` is truthy (a non-empty string), otherwise do nothing. -/
def addStaffItem (staffList : List StaffEntry) (newStaff : StaffEntry) (now : ℕ) :
    List StaffEntry :=
  if newStaff.name ≠ "" then staffList ++ [{ newStaff with id := some (tempId now) }]
  else staffList

/-- The `medicine` branch of `addItem`. -/
def addMedicineItem (medicineList : List MedicineEntry) (newMedicine : MedicineEntry)
    (now : ℕ) : List MedicineEntry :=
  if newMedicine.name ≠ "" then medicineList ++ [{ newMedicine with id := some (tempId now) }]
  else medicineList

/-- The `equipment` branch of `addItem`. -/
def addEquipmentItem (equipmentList : List EquipmentEntry) (newEquipment : EquipmentEntry)
    (now : ℕ) : List EquipmentEntry :=
  if newEquipment.name ≠ "" then equipmentList ++ [{ newEquipment with id := some (tempId now) }]
  else equipmentList

/-- `removeItem`: `list.filter((_, i) => i !== index)`, i.e. keep exactly
the positions different from `index`. -/
def removeItem {α : Type} (list : List α) (index : ℕ) : List α :=
  (list.enum.filter (fun p => decide (p.1 ≠ index))).map Prod.snd

/-- Spec-side staff cost: "staffCost sums unitCosts.staffPerDay ×
durationDays once per staff entry". -/
def specStaffCost (uc : UnitCosts) (staffList : List StaffEntry) (durationDays : ℤ) : ℚ :=
  (staffList.map fun _ => uc.staffPerDay * (durationDays : ℚ)).sum

/-- Spec-side medicine cost: "sums entry.quantityPerPatient ×
targetPatients × unitCosts.medicinePerUnit with non-numeric or missing
quantityPerPatient/targetPatients treated as 0". -/
def specMedicineCost (uc : UnitCosts) (medicineList : List MedicineEntry)
    (targetPatients : JsPrim) : ℚ :=
  (medicineList.map fun med =>
    (jsParseFloat med.quantityPerPatient).toQ0 * (jsParseInt targetPatients).toQ0 *
      uc.medicinePerUnit).sum

/-- Spec-side equipment cost: "sums entry.quantity ×
unitCosts.equipmentPerItem with non-numeric quantity treated as 0". -/
def specEquipmentCost (uc : UnitCosts) (equipmentList : List EquipmentEntry) : ℚ :=
  (equipmentList.map fun equip => (jsParseInt equip.quantity).toQ0 * uc.equipmentPerItem).sum

/-- Spec-side base cost: `staffCost + medicineCost + equipmentCost`. -/
def specBaseCost (uc : UnitCosts) (staffList : List StaffEntry)
    (medicineList : List MedicineEntry) (equipmentList : List EquipmentEntry)
    (targetPatients : JsPrim) (campDetails : Option CampDetails) : ℚ :=
  specStaffCost uc staffList (calculateCampDurationDays campDetails) +
    specMedicineCost uc medicineList targetPatients +
    specEquipmentCost uc equipmentList

/-- The filter predicate as claim C4 states it: a non-null geometry whose
coordinate pair parses to two finite numbers, and a property value that
parses to a finite number. -/
def specKeepFeature (f : Feature) : Bool :=
  match f.geometry, f.properties with
  | some g, some p =>
    (match g.coordinates with
     | some cs =>
       (jsParseFloat (cs.getD 0 JsPrim.undef) matches JsNum.fin _) &&
         (jsParseFloat (cs.getD 1 JsPrim.undef) matches JsNum.fin _)
     | none => false) &&
      (jsParseFloat p.value matches JsNum.fin _)
  | _, _ => false

/-- The filter predicate as amended: a truthy geometry carrying an array
`coordinates` field (contents unvalidated), truthy properties, and a
`value` that is neither `null` nor `undefined` and parses to a non-`NaN`
number. -/
def specKeepAmended (f : Feature) : Bool :=
  match f.geometry, f.properties with
  | some g, some p =>
    g.coordinates.isSome && !decide (p.value = JsPrim.null) &&
      !decide (p.value = JsPrim.undef) && !(jsParseFloat p.value).isNanB
  | _, _ => false

/-- The medicine entry of the C3 counterexample: a negative
`quantityPerPatient` typed into the (client-unvalidated) number field. -/
def negativeQtyMedicine : MedicineEntry :=
  { name := "painkiller", unit := "tablet", quantityPerPatient := JsPrim.str "-1",
    notes := "" }

/-- The feature of the C4 counterexample: an array coordinate pair whose
entries are non-numeric strings, with a perfectly numeric value. -/
def nonNumericCoordFeature : Feature :=
  { geometry := some { coordinates := some [JsPrim.str "x", JsPrim.str "y"] },
    properties := some { value := JsPrim.num 5 } }

/-- The feature of the C7 counterexample: well-formed coordinates with a
negative indicator value. -/
def negativeValueFeature : Feature :=
  { geometry := some { coordinates := some [JsPrim.num 0, JsPrim.num 0] },
    properties := some { value := JsPrim.num (-5) } }

theorem JsNum.add_fin_fin (a b : ℚ) : (JsNum.fin a).add (.fin b) = .fin (a + b) := rfl

theorem JsNum.mul_fin_fin (a b : ℚ) : (JsNum.fin a).mul (.fin b) = .fin (a * b) := rfl

theorem jsRound_fin (q : ℚ) : jsRound (.fin q) = .fin ((jsRoundQ q : ℤ) : ℚ) := rfl

theorem JsNum.orZero_eq_fin (x : JsNum) (h : x.isInfB = false) : x.orZero = .fin x.toQ0 := by
  cases x with
  | fin q =>
    by_cases hq : q = 0 <;> simp [JsNum.orZero, JsNum.falsy, JsNum.toQ0, hq]
  | nan => rfl
  | inf => simp [JsNum.isInfB] at h
  | neginf => simp [JsNum.isInfB] at h

theorem jsParseInt_not_inf (p : JsPrim) : (jsParseInt p).isInfB = false := by
  cases p with
  | str s =>
    simp only [jsParseInt, parseIntChars]
    split <;> rfl
  | num q => rfl
  | bool b => rfl
  | null => rfl
  | undef => rfl

theorem staffCost_foldl (uc : UnitCosts) (l : List StaffEntry) (d : ℤ) :
    ∀ a : ℚ, l.foldl (fun total _ => total + uc.staffPerDay * (d : ℚ)) a =
      a + l.length * (uc.staffPerDay * (d : ℚ)) := by
  induction l with
  | nil => intro a; simp
  | cons x xs ih =>
    intro a
    simp only [List.foldl_cons, ih, List.length_cons]
    push_cast
    ring

theorem staffCost_eq_spec (uc : UnitCosts) (l : List StaffEntry) (d : ℤ) :
    staffCost uc l d = specStaffCost uc l d := by
  simp only [staffCost, specStaffCost, staffCost_foldl uc l d 0, List.map_const',
    List.sum_replicate, nsmul_eq_mul, zero_add]

theorem medicineCostJs_eq_spec (uc : UnitCosts) (l : List MedicineEntry) (tp : JsPrim)
    (h : ∀ m ∈ l, (jsParseFloat m.quantityPerPatient).isInfB = false) :
    medicineCostJs uc l tp = .fin (specMedicineCost uc l tp) := by
  suffices hgen : ∀ a : ℚ,
      l.foldl
        (fun (total : JsNum) med =>
          total.add ((((jsParseFloat med.quantityPerPatient).orZero).mul
            ((jsParseInt tp).orZero)).mul (JsNum.fin uc.medicinePerUnit)))
        (JsNum.fin a) = JsNum.fin (a + specMedicineCost uc l tp) by
    simpa [medicineCostJs] using hgen 0
  induction l with
  | nil => intro a; simp [specMedicineCost]
  | cons m ms ih =>
    intro a
    have hm : (jsParseFloat m.quantityPerPatient).isInfB = false :=
      h m (List.mem_cons_self m ms)
    have hms : ∀ x ∈ ms, (jsParseFloat x.quantityPerPatient).isInfB = false :=
      fun x hx => h x (List.mem_cons_of_mem m hx)
    have hstep : (JsNum.fin a).add ((((jsParseFloat m.quantityPerPatient).orZero).mul
        ((jsParseInt tp).orZero)).mul (JsNum.fin uc.medicinePerUnit)) =
        JsNum.fin (a + (jsParseFloat m.quantityPerPatient).toQ0 * (jsParseInt tp).toQ0 *
          uc.medicinePerUnit) := by
      rw [JsNum.orZero_eq_fin _ hm, JsNum.orZero_eq_fin _ (jsParseInt_not_inf tp),
        JsNum.mul_fin_fin, JsNum.mul_fin_fin, JsNum.add_fin_fin]
    simp only [List.foldl_cons]
    rw [hstep, ih hms]
    simp only [specMedicineCost, List.map_cons, List.sum_cons]
    congr 1
    ring

theorem equipmentCostJs_eq_spec (uc : UnitCosts) (l : List EquipmentEntry) :
    equipmentCostJs uc l = .fin (specEquipmentCost uc l) := by
  suffices hgen : ∀ a : ℚ,
      l.foldl
        (fun (total : JsNum) equip =>
          total.add (((jsParseInt equip.quantity).orZero).mul (JsNum.fin uc.equipmentPerItem)))
        (JsNum.fin a) = JsNum.fin (a + specEquipmentCost uc l) by
    simpa [equipmentCostJs] using hgen 0
  induction l with
  | nil => intro a; simp [specEquipmentCost]
  | cons e es ih =>
    intro a
    have hstep : (JsNum.fin a).add (((jsParseInt e.quantity).orZero).mul
        (JsNum.fin uc.equipmentPerItem)) =
        JsNum.fin (a + (jsParseInt e.quantity).toQ0 * uc.equipmentPerItem) := by
      rw [JsNum.orZero_eq_fin _ (jsParseInt_not_inf e.quantity), JsNum.mul_fin_fin,
        JsNum.add_fin_fin]
    simp only [List.foldl_cons]
    rw [hstep, ih]
    simp only [specEquipmentCost, List.map_cons, List.sum_cons]
    congr 1
    ring

theorem totalBaseCost_eq_spec (uc : UnitCosts) (staffList : List StaffEntry)
    (medicineList : List MedicineEntry) (equipmentList : List EquipmentEntry)
    (targetPatients : JsPrim) (campDetails : Option CampDetails)
    (hmed : ∀ m ∈ medicineList, (jsParseFloat m.quantityPerPatient).isInfB = false) :
    totalBaseCost uc staffList medicineList equipmentList targetPatients campDetails =
      .fin (specBaseCost uc staffList medicineList equipmentList targetPatients campDetails) := by
  simp only [totalBaseCost, specBaseCost, staffCost_eq_spec,
    medicineCostJs_eq_spec uc medicineList targetPatients hmed, equipmentCostJs_eq_spec,
    JsNum.add_fin_fin]

theorem calculateCampDurationDays_swap (cd : CampDetails) :
    calculateCampDurationDays (some cd) =
      calculateCampDurationDays (some ⟨cd.end_date, cd.start_date⟩) := by
  cases h1 : cd.start_date.truthy with
  | false => simp [calculateCampDurationDays, h1]
  | true =>
    cases h2 : cd.end_date.truthy with
    | false => simp [calculateCampDurationDays, h1, h2]
    | true =>
      simp only [calculateCampDurationDays, h1, h2, Bool.and_self, if_true]
      cases hs : jsDateMs cd.start_date <;> cases he : jsDateMs cd.end_date <;>
        simp only [hs, he] <;> try rfl
      rw [abs_sub_comm]

theorem one_le_calculateCampDurationDays (w : Option CampDetails) :
    1 ≤ calculateCampDurationDays w := by
  cases w with
  | none => simp [calculateCampDurationDays]
  | some cd =>
    simp only [calculateCampDurationDays]
    split
    · cases hs : jsDateMs cd.start_date <;> cases he : jsDateMs cd.end_date <;>
        simp only [hs, he] <;> omega
    · omega

theorem calculateCampDurationDays_valid (cd : CampDetails) (s e : ℤ)
    (h1 : cd.start_date.truthy = true) (h2 : cd.end_date.truthy = true)
    (hs : jsDateMs cd.start_date = some s) (he : jsDateMs cd.end_date = some e)
    (hle : s ≤ e) :
    calculateCampDurationDays (some cd) = ⌈((e : ℚ) - (s : ℚ)) / 86400000⌉ + 1 := by
  have habs : |e - s| = e - s := abs_of_nonneg (sub_nonneg.mpr hle)
  have hkey : (⌈((e - s : ℤ) : ℚ) / (1000 * 60 * 60 * 24)⌉ : ℤ) =
      ⌈((e : ℚ) - (s : ℚ)) / 86400000⌉ := by
    congr 1
    push_cast
    norm_num
  have hnn : (0 : ℚ) ≤ ((e - s : ℤ) : ℚ) / (1000 * 60 * 60 * 24) := by
    apply div_nonneg
    · exact_mod_cast sub_nonneg.mpr hle
    · norm_num
  have hpos : 0 < (⌈((e - s : ℤ) : ℚ) / (1000 * 60 * 60 * 24)⌉ : ℤ) + 1 := by
    have := Int.ceil_nonneg hnn
    omega
  simp only [calculateCampDurationDays, h1, h2, Bool.and_self, if_true, hs, he, habs]
  rw [if_pos hpos, hkey]

theorem calculateCampDurationDays_unparsable (cd : CampDetails)
    (h : jsDateMs cd.start_date = none ∨ jsDateMs cd.end_date = none ∨
      cd.start_date.truthy = false ∨ cd.end_date.truthy = false) :
    calculateCampDurationDays (some cd) = 1 := by
  cases h1 : cd.start_date.truthy with
  | false => simp [calculateCampDurationDays, h1]
  | true =>
    cases h2 : cd.end_date.truthy with
    | false => simp [calculateCampDurationDays, h1, h2]
    | true =>
      simp only [calculateCampDurationDays, h1, h2, Bool.and_self, if_true]
      cases hs : jsDateMs cd.start_date <;> cases he : jsDateMs cd.end_date <;>
        simp only [hs, he] <;> try rfl
      rcases h with h | h | h | h
      · rw [hs] at h; cases h
      · rw [he] at h; cases h
      · rw [h1] at h; cases h
      · rw [h2] at h; cases h

theorem removeItem_enumFrom {α : Type} (l : List α) :
    ∀ n i : ℕ, ((List.enumFrom n l).filter (fun p => decide (p.1 ≠ i))).map Prod.snd =
      if i < n then l
      else if i - n < l.length then l.eraseIdx (i - n)
      else l := by
  induction l with
  | nil => intro n i; simp
  | cons x xs ih =>
    intro n i
    simp only [List.enumFrom_cons, List.filter_cons]
    by_cases hni : n = i
    · subst hni
      rw [if_neg (by simp)]
      rw [ih (n + 1) n, if_pos (Nat.lt_succ_self n)]
      rw [if_neg (lt_irrefl n), if_pos (by simp), Nat.sub_self, List.eraseIdx_cons_zero]
    · rw [if_pos (by simpa using hni)]
      simp only [List.map_cons, ih (n + 1) i]
      rcases Nat.lt_or_ge i n with hlt | hge
      · rw [if_pos (by omega), if_pos hlt]
      · have hsub : i - n = (i - (n + 1)) + 1 := by omega
        rw [if_neg (show ¬ i < n + 1 by omega)]
        by_cases hlen : i - (n + 1) < xs.length
        · rw [if_pos hlen, if_neg (by omega),
            if_pos (by simp only [List.length_cons]; omega), hsub,
            List.eraseIdx_cons_succ]
        · rw [if_neg hlen, if_neg (by omega),
            if_neg (by simp only [List.length_cons]; omega)]

theorem removeItem_in_range {α : Type} (l : List α) (i : ℕ) (h : i < l.length) :
    removeItem l i = l.eraseIdx i := by
  rw [removeItem, List.enum, removeItem_enumFrom l 0 i, if_neg (Nat.not_lt_zero i),
    if_pos (by simpa using h)]
  simp

theorem removeItem_out_of_range {α : Type} (l : List α) (i : ℕ) (h : l.length ≤ i) :
    removeItem l i = l := by
  rw [removeItem, List.enum, removeItem_enumFrom l 0 i, if_neg (Nat.not_lt_zero i),
    if_neg (by simpa using Nat.not_lt.mpr h)]

theorem processHeatmap_singleton (f : Feature) (ind : Option IndicatorDetail)
    (hk : keepFeature f = true) :
    processHeatmapFeatures [f] ind = [emitSample ind f] := by
  simp [processHeatmapFeatures, List.filter, hk]

theorem keepFeature_parse_not_nan (f : Feature) (p : FeatureProps)
    (hp : f.properties = some p) (hk : keepFeature f = true) :
    (jsParseFloat p.value).isNanB = false := by
  simp only [keepFeature, Feature.valueOpt, hp, Bool.and_eq_true, Bool.not_eq_true'] at hk
  exact hk.2.2

theorem emitIntensity_invert_nonneg (ind : IndicatorDetail) (hinv : ind.invert = true)
    (raw : JsNum) (hraw : raw.isNanB = false) :
    (emitIntensity (some ind) raw).nonnegB = true := by
  cases raw with
  | fin q =>
    simp [emitIntensity, hinv, jsMax0, JsNum.sub, JsNum.nonnegB, le_max_left]
  | inf => simp [emitIntensity, hinv, jsMax0, JsNum.sub, JsNum.nonnegB]
  | neginf => simp [emitIntensity, hinv, jsMax0, JsNum.sub, JsNum.nonnegB]
  | nan => simp [JsNum.isNanB] at hraw

theorem keepFeature_eq_specKeepAmended (f : Feature) :
    keepFeature f = specKeepAmended f := by
  obtain ⟨g, p⟩ := f
  cases g with
  | none => rfl
  | some geo =>
    cases p with
    | none =>
      simp [keepFeature, specKeepAmended, Feature.valueOpt, Feature.coordsOpt]
    | some props =>
      simp [keepFeature, specKeepAmended, Feature.valueOpt, Feature.coordsOpt,
        Bool.and_assoc]

theorem jsParseFloat_neg_one : jsParseFloat (JsPrim.str "-1") = JsNum.fin (-1) := by
  have h0 : "-1".data = ['-', '1'] := rfl
  have h1 : List.dropWhile Char.isWhitespace ['-', '1'] = ['-', '1'] := by decide
  have h2 : parseSign ['-', '1'] = (true, ['1']) := rfl
  have h3 : isInfinityLit ['1'] = false := rfl
  have h4 : List.takeWhile isDigitCh ['1'] = ['1'] := by decide
  have h5 : List.dropWhile isDigitCh ['1'] = [] := by decide
  have h6 : digitsToNat 0 ['1'] = 1 := by decide
  have h7 : digitsToNat 0 ([] : List Char) = 0 := rfl
  have h8 : parseExpPart [] = 0 := rfl
  simp [jsParseFloat, parseFloatChars, h0, h1, h2, h3, h4, h5, h6, h7, h8]

theorem jsParseFloat_forty_two_point_five :
    jsParseFloat (JsPrim.str "42.5") = JsNum.fin (85 / 2) := by
  have h0 : "42.5".data = ['4', '2', '.', '5'] := rfl
  have h1 : List.dropWhile Char.isWhitespace ['4', '2', '.', '5'] = ['4', '2', '.', '5'] := by
    decide
  have h2 : parseSign ['4', '2', '.', '5'] = (false, ['4', '2', '.', '5']) := rfl
  have h3 : isInfinityLit ['4', '2', '.', '5'] = false := rfl
  have h4 : List.takeWhile isDigitCh ['4', '2', '.', '5'] = ['4', '2'] := by decide
  have h5 : List.dropWhile isDigitCh ['4', '2', '.', '5'] = ['.', '5'] := by decide
  have h6 : List.takeWhile isDigitCh ['5'] = ['5'] := by decide
  have h7 : List.dropWhile isDigitCh ['5'] = [] := by decide
  have h8 : digitsToNat 0 ['4', '2'] = 42 := by decide
  have h9 : digitsToNat 0 ['5'] = 5 := by decide
  have h10 : parseExpPart [] = 0 := rfl
  simp [jsParseFloat, parseFloatChars, h0, h1, h2, h3, h4, h5, h6, h7, h8, h9, h10]
  norm_num

theorem jsParseFloat_NA : jsParseFloat (JsPrim.str "N/A") = JsNum.nan := by decide

theorem jsParseInt_num_hundred : jsParseInt (JsPrim.num 100) = JsNum.fin 100 := by
  simp [jsParseInt]

theorem JsNum.orZero_fin_of_ne (q : ℚ) (h : q ≠ 0) : (JsNum.fin q).orZero = .fin q := by
  simp [JsNum.orZero, JsNum.falsy, h]

/-- C1: for every unit-cost assignment, staff/medicine/equipment lists,
target-patient value and camp window (with medicine quantities that do not
parse to the JavaScript literal `Infinity`, the one parse result that is
neither usable arithmetic nor "treated as 0"), `calculateEstimatedCost`
returns `min = round(base * 0.85)` and `max = round(base * 1.15)` where
`base` is the spec-side sum: per-staff `staffPerDay * durationDays`, plus
per-medicine `quantityPerPatient * targetPatients * medicinePerUnit` with
non-numeric/missing values as 0, plus per-equipment
`quantity * equipmentPerItem` with non-numeric values as 0. -/
theorem C1_estimate_cost_formula (uc : UnitCosts) (staffList : List StaffEntry)
    (medicineList : List MedicineEntry) (equipmentList : List EquipmentEntry)
    (targetPatients : JsPrim) (campDetails : Option CampDetails)
    (hmed : ∀ m ∈ medicineList, (jsParseFloat m.quantityPerPatient).isInfB = false) :
    calculateEstimatedCost uc staffList medicineList equipmentList targetPatients campDetails =
      { min := JsNum.fin ((jsRoundQ (specBaseCost uc staffList medicineList equipmentList
            targetPatients campDetails * (85 / 100)) : ℤ) : ℚ),
        max := JsNum.fin ((jsRoundQ (specBaseCost uc staffList medicineList equipmentList
            targetPatients campDetails * (115 / 100)) : ℤ) : ℚ) } := by
  simp only [calculateEstimatedCost,
    totalBaseCost_eq_spec uc staffList medicineList equipmentList targetPatients campDetails
      hmed,
    JsNum.mul_fin_fin, jsRound_fin]

/-- Witness for C1: `staffPerDay = 50`, one staff entry, a 3-day window
(2025-01-01 to 2025-01-03), no medicine or equipment: base = 150,
min = 128, max = 173. -/
theorem C1_estimate_cost_formula_witness :
    calculateEstimatedCost placeholderCosts
      [{ name := "Asha", role := "Doctor", origin := "", contact := "", notes := "" }]
      [] [] (JsPrim.num 0)
      (some { start_date := JsPrim.str "2025-01-01", end_date := JsPrim.str "2025-01-03" }) =
      { min := JsNum.fin 128, max := JsNum.fin 173 } := by
  have h1 : parseISODateMs "2025-01-01" = some 1735689600000 := by decide
  have h2 : parseISODateMs "2025-01-03" = some 1735862400000 := by decide
  have hc : (⌈((172800000 : ℤ) : ℚ) / (1000 * 60 * 60 * 24)⌉ : ℤ) = 2 := by
    rw [Int.ceil_eq_iff]
    norm_num
  have hd : calculateCampDurationDays
      (some { start_date := JsPrim.str "2025-01-01", end_date := JsPrim.str "2025-01-03" }) =
      3 := by
    simp +decide only [calculateCampDurationDays, jsDateMs, JsPrim.truthy, h1, h2]
    norm_num [hc]
  rw [C1_estimate_cost_formula placeholderCosts _ [] [] (JsPrim.num 0) _ (by simp)]
  have hS : specBaseCost placeholderCosts
      [{ name := "Asha", role := "Doctor", origin := "", contact := "", notes := "" }]
      [] [] (JsPrim.num 0)
      (some { start_date := JsPrim.str "2025-01-01", end_date := JsPrim.str "2025-01-03" }) =
      150 := by
    simp only [specBaseCost, specStaffCost, specMedicineCost, specEquipmentCost, hd,
      List.map_cons, List.map_nil, List.sum_cons, List.sum_nil, placeholderCosts]
    norm_num
  rw [hS]
  have hmin : jsRoundQ ((150 : ℚ) * (85 / 100)) = 128 := by
    rw [jsRoundQ, Int.floor_eq_iff]
    norm_num
  have hmax : jsRoundQ ((150 : ℚ) * (115 / 100)) = 173 := by
    rw [jsRoundQ, Int.floor_eq_iff]
    norm_num
  rw [hmin, hmax]
  norm_num

/-- C9: every staff entry contributes the same flat
`staffPerDay * durationDays` regardless of its fields, so the staff cost
depends only on the list length, and two staff lists of equal length give
identical estimates for otherwise identical inputs. -/
theorem C9_staff_cost_role_independent :
    (∀ (uc : UnitCosts) (l : List StaffEntry) (d : ℤ),
        staffCost uc l d = (l.length : ℚ) * (uc.staffPerDay * (d : ℚ))) ∧
    (∀ (uc : UnitCosts) (s1 s2 : List StaffEntry) (medicineList : List MedicineEntry)
        (equipmentList : List EquipmentEntry) (targetPatients : JsPrim)
        (campDetails : Option CampDetails),
        s1.length = s2.length →
        calculateEstimatedCost uc s1 medicineList equipmentList targetPatients campDetails =
          calculateEstimatedCost uc s2 medicineList equipmentList targetPatients
            campDetails) := by
  constructor
  · intro uc l d
    simpa [staffCost] using staffCost_foldl uc l d 0
  · intro uc s1 s2 medicineList equipmentList targetPatients campDetails hlen
    have hsc : staffCost uc s1 (calculateCampDurationDays campDetails) =
        staffCost uc s2 (calculateCampDurationDays campDetails) := by
      have e1 := staffCost_foldl uc s1 (calculateCampDurationDays campDetails) 0
      have e2 := staffCost_foldl uc s2 (calculateCampDurationDays campDetails) 0
      simp only [staffCost]
      rw [e1, e2, hlen]
    simp only [calculateEstimatedCost, totalBaseCost, hsc]

/-- Witness for C9: two one-element staff lists with entirely different
entry contents yield the same estimate. -/
theorem C9_staff_cost_role_independent_witness :
    calculateEstimatedCost placeholderCosts
      [{ name := "Asha", role := "Doctor", origin := "AIIMS", contact := "98", notes := "x" }]
      [] [] (JsPrim.num 10) none =
    calculateEstimatedCost placeholderCosts
      [{ name := "Ravi", role := "Volunteer", origin := "", contact := "", notes := "" }]
      [] [] (JsPrim.num 10) none :=
  C9_staff_cost_role_independent.2 placeholderCosts _ _ [] [] (JsPrim.num 10) none rfl

/-- C3 counterexample: a medicine entry whose `quantityPerPatient` is the
string `"-1"` with 100 target patients (and no staff, equipment or window)
gives base = -200, hence `min = -170 > max = -230` and both negative: the
claimed invariant fails on the code. -/
theorem C3_counterexample :
    calculateEstimatedCost placeholderCosts [] [negativeQtyMedicine] [] (JsPrim.num 100)
        none =
      { min := JsNum.fin (-170), max := JsNum.fin (-230) } ∧
    ¬ ((-170 : ℚ) ≤ (-230 : ℚ)) ∧ (-170 : ℚ) < 0 := by
  refine ⟨?_, by norm_num, by norm_num⟩
  have horz : (JsNum.fin (-1 : ℚ)).orZero = .fin (-1) :=
    JsNum.orZero_fin_of_ne _ (by norm_num)
  have horz2 : (JsNum.fin (100 : ℚ)).orZero = .fin 100 :=
    JsNum.orZero_fin_of_ne _ (by norm_num)
  have hmc : medicineCostJs placeholderCosts [negativeQtyMedicine] (JsPrim.num 100) =
      JsNum.fin (-200) := by
    simp only [medicineCostJs, List.foldl_cons, List.foldl_nil, negativeQtyMedicine,
      jsParseFloat_neg_one, jsParseInt_num_hundred, horz, horz2, JsNum.mul_fin_fin,
      JsNum.add_fin_fin, placeholderCosts]
    norm_num
  have htb : totalBaseCost placeholderCosts [] [negativeQtyMedicine] [] (JsPrim.num 100)
      none = JsNum.fin (-200) := by
    simp only [totalBaseCost, staffCost, equipmentCostJs, List.foldl_nil, hmc,
      JsNum.add_fin_fin]
    norm_num
  have hmin : jsRoundQ ((-200 : ℚ) * (85 / 100)) = -170 := by
    rw [jsRoundQ, Int.floor_eq_iff]
    norm_num
  have hmax : jsRoundQ ((-200 : ℚ) * (115 / 100)) = -230 := by
    rw [jsRoundQ, Int.floor_eq_iff]
    norm_num
  simp only [calculateEstimatedCost, htb, JsNum.mul_fin_fin, jsRound_fin, hmin, hmax]
  norm_num

/-- C3 as amended: whenever the computed base cost is a finite
non-negative number (which negative quantity inputs can violate), the
estimate satisfies `min = round(base * 0.85) ≤ max = round(base * 1.15)`
and both are non-negative integer values. -/
theorem C3_amended_min_le_max (uc : UnitCosts) (staffList : List StaffEntry)
    (medicineList : List MedicineEntry) (equipmentList : List EquipmentEntry)
    (targetPatients : JsPrim) (campDetails : Option CampDetails) (B : ℚ)
    (hB : totalBaseCost uc staffList medicineList equipmentList targetPatients campDetails =
      JsNum.fin B)
    (hB0 : 0 ≤ B) :
    (calculateEstimatedCost uc staffList medicineList equipmentList targetPatients
        campDetails).min = JsNum.fin ((jsRoundQ (B * (85 / 100)) : ℤ) : ℚ) ∧
    (calculateEstimatedCost uc staffList medicineList equipmentList targetPatients
        campDetails).max = JsNum.fin ((jsRoundQ (B * (115 / 100)) : ℤ) : ℚ) ∧
    jsRoundQ (B * (85 / 100)) ≤ jsRoundQ (B * (115 / 100)) ∧
    0 ≤ jsRoundQ (B * (85 / 100)) := by
  refine ⟨?_, ?_, ?_, ?_⟩
  · simp only [calculateEstimatedCost, hB, JsNum.mul_fin_fin, jsRound_fin]
  · simp only [calculateEstimatedCost, hB, JsNum.mul_fin_fin, jsRound_fin]
  · apply Int.floor_le_floor
    have : B * (85 / 100) ≤ B * (115 / 100) :=
      mul_le_mul_of_nonneg_left (by norm_num) hB0
    linarith
  · rw [jsRoundQ, Int.le_floor]
    have : (0 : ℚ) ≤ B * (85 / 100) := by positivity
    push_cast
    linarith

/-- Witness for C3 as amended: with all lists empty the base is the
finite value 0, and the bounds are `round(0) = 0 ≤ 0`. -/
theorem C3_amended_min_le_max_witness :
    totalBaseCost placeholderCosts [] [] [] (JsPrim.num 0) none = JsNum.fin 0 ∧
    ((calculateEstimatedCost placeholderCosts [] [] [] (JsPrim.num 0) none).min =
        JsNum.fin ((jsRoundQ ((0 : ℚ) * (85 / 100)) : ℤ) : ℚ) ∧
      (calculateEstimatedCost placeholderCosts [] [] [] (JsPrim.num 0) none).max =
        JsNum.fin ((jsRoundQ ((0 : ℚ) * (115 / 100)) : ℤ) : ℚ) ∧
      jsRoundQ ((0 : ℚ) * (85 / 100)) ≤ jsRoundQ ((0 : ℚ) * (115 / 100)) ∧
      0 ≤ jsRoundQ ((0 : ℚ) * (85 / 100))) := by
  have htb : totalBaseCost placeholderCosts [] [] [] (JsPrim.num 0) none = JsNum.fin 0 := by
    simp only [totalBaseCost, staffCost, medicineCostJs, equipmentCostJs, List.foldl_nil,
      JsNum.add_fin_fin]
    norm_num
  exact ⟨htb, C3_amended_min_le_max placeholderCosts [] [] [] (JsPrim.num 0) none 0 htb
    (le_refl 0)⟩

/-- C2 counterexample: the window 2025-01-05 → 2025-01-01 has its end
strictly before its start, yet the computed duration is 5 (the absolute
difference is used), not the claimed default of 1. -/
theorem C2_counterexample :
    jsDateMs (JsPrim.str "2025-01-05") = some 1736035200000 ∧
    jsDateMs (JsPrim.str "2025-01-01") = some 1735689600000 ∧
    (1735689600000 : ℤ) < 1736035200000 ∧
    calculateCampDurationDays
      (some { start_date := JsPrim.str "2025-01-05",
              end_date := JsPrim.str "2025-01-01" }) = 5 ∧
    (5 : ℤ) ≠ 1 := by
  refine ⟨by decide, by decide, by decide, ?_, by decide⟩
  have h1 : parseISODateMs "2025-01-05" = some 1736035200000 := by decide
  have h2 : parseISODateMs "2025-01-01" = some 1735689600000 := by decide
  have hc : (⌈((345600000 : ℤ) : ℚ) / (1000 * 60 * 60 * 24)⌉ : ℤ) = 4 := by
    rw [Int.ceil_eq_iff]
    norm_num
  simp +decide only [calculateCampDurationDays, jsDateMs, JsPrim.truthy, h1, h2]
  norm_num [hc]

/-- C2 as amended: for a parseable window with start ≤ end the duration is
`ceil((end - start) in days) + 1` inclusive; an absent or malformed window
gives 1; the result is always at least 1; and a window whose end precedes
its start yields the same duration as the swapped window (the absolute
date difference is used), not a default of 1. -/
theorem C2_amended_duration :
    (∀ (cd : CampDetails) (s e : ℤ),
        cd.start_date.truthy = true → cd.end_date.truthy = true →
        jsDateMs cd.start_date = some s → jsDateMs cd.end_date = some e → s ≤ e →
        calculateCampDurationDays (some cd) = ⌈((e : ℚ) - (s : ℚ)) / 86400000⌉ + 1) ∧
    calculateCampDurationDays none = 1 ∧
    (∀ cd : CampDetails,
        jsDateMs cd.start_date = none ∨ jsDateMs cd.end_date = none ∨
          cd.start_date.truthy = false ∨ cd.end_date.truthy = false →
        calculateCampDurationDays (some cd) = 1) ∧
    (∀ w : Option CampDetails, 1 ≤ calculateCampDurationDays w) ∧
    (∀ cd : CampDetails,
        calculateCampDurationDays (some cd) =
          calculateCampDurationDays
            (some { start_date := cd.end_date, end_date := cd.start_date })) :=
  ⟨calculateCampDurationDays_valid, rfl, calculateCampDurationDays_unparsable,
    one_le_calculateCampDurationDays, calculateCampDurationDays_swap⟩

/-- Witness for C2 as amended: 2025-01-01 → 2025-01-05 gives 5 days, and a
window with start = end gives 1 day. -/
theorem C2_amended_duration_witness :
    calculateCampDurationDays
      (some { start_date := JsPrim.str "2025-01-01",
              end_date := JsPrim.str "2025-01-05" }) = 5 ∧
    calculateCampDurationDays
      (some { start_date := JsPrim.str "2025-01-01",
              end_date := JsPrim.str "2025-01-01" }) = 1 := by
  constructor
  · have h := C2_amended_duration.1
      { start_date := JsPrim.str "2025-01-01", end_date := JsPrim.str "2025-01-05" }
      1735689600000 1736035200000 (by decide) (by decide) (by decide) (by decide)
      (by decide)
    rw [h]
    have hc : (⌈(((1736035200000 : ℤ) : ℚ) - ((1735689600000 : ℤ) : ℚ)) / 86400000⌉ : ℤ) =
        4 := by
      rw [Int.ceil_eq_iff]
      push_cast
      norm_num
    rw [hc]
    norm_num
  · have h := C2_amended_duration.1
      { start_date := JsPrim.str "2025-01-01", end_date := JsPrim.str "2025-01-01" }
      1735689600000 1735689600000 (by decide) (by decide) (by decide) (by decide)
      (by decide)
    rw [h]
    have hc : (⌈(((1735689600000 : ℤ) : ℚ) - ((1735689600000 : ℤ) : ℚ)) / 86400000⌉ : ℤ) =
        0 := by
      simp
    rw [hc]
    norm_num

/-- C10: the computed camp duration is symmetric in its two (parseable)
endpoint dates, because the code takes the absolute value of the date
difference. -/
theorem C10_duration_symmetric (d1 d2 : String) (t1 t2 : ℤ)
    (h1 : parseISODateMs d1 = some t1) (h2 : parseISODateMs d2 = some t2) :
    calculateCampDurationDays
      (some { start_date := JsPrim.str d1, end_date := JsPrim.str d2 }) =
    calculateCampDurationDays
      (some { start_date := JsPrim.str d2, end_date := JsPrim.str d1 }) :=
  calculateCampDurationDays_swap
    { start_date := JsPrim.str d1, end_date := JsPrim.str d2 }

/-- Witness for C10: swapping 2025-01-05 and 2025-01-01 leaves the
duration unchanged. -/
theorem C10_duration_symmetric_witness :
    calculateCampDurationDays
      (some { start_date := JsPrim.str "2025-01-05",
              end_date := JsPrim.str "2025-01-01" }) =
    calculateCampDurationDays
      (some { start_date := JsPrim.str "2025-01-01",
              end_date := JsPrim.str "2025-01-05" }) :=
  C10_duration_symmetric "2025-01-05" "2025-01-01" 1736035200000 1735689600000
    (by decide) (by decide)

/-- C4 counterexample: a feature whose coordinate pair is the non-numeric
strings `["x", "y"]` (with a numeric value) fails the spec's filter, yet
the code keeps it and emits a sample from it: the filter never validates
coordinate contents. -/
theorem C4_counterexample :
    specKeepFeature nonNumericCoordFeature = false ∧
    processHeatmapFeatures [nonNumericCoordFeature] none =
      [(JsPrim.str "y", JsPrim.str "x", JsNum.fin 5)] := by
  constructor
  · decide
  · rw [processHeatmap_singleton _ _ (by decide)]
    rfl

/-- C4 as amended: `project` keeps exactly the features with a truthy
geometry carrying an array `coordinates` field (contents unvalidated),
truthy properties, and a `value` that is neither `null` nor `undefined`
and parses to a non-`NaN` number; all others are dropped silently.  A
value `"N/A"` is dropped and a value `"42.5"` is kept. -/
theorem C4_amended_filter :
    (∀ (features : List Feature) (ind : Option IndicatorDetail),
        processHeatmapFeatures features ind =
          (features.filter specKeepAmended).map (emitSample ind)) ∧
    (∀ g : Option Geometry,
        specKeepAmended
          { geometry := g, properties := some { value := JsPrim.str "N/A" } } = false) ∧
    (∀ cs : List JsPrim,
        specKeepAmended
          { geometry := some { coordinates := some cs },
            properties := some { value := JsPrim.str "42.5" } } = true) := by
  refine ⟨?_, ?_, ?_⟩
  · intro features ind
    rw [processHeatmapFeatures, funext keepFeature_eq_specKeepAmended]
  · intro g
    cases g with
    | none => rfl
    | some geo => simp [specKeepAmended, jsParseFloat_NA, JsNum.isNanB]
  · intro cs
    simp [specKeepAmended, jsParseFloat_forty_two_point_five, JsNum.isNanB]

/-- C5: for a retained feature with a finite parsed value `r`, the emitted
intensity is `max(0, 100 - r)` (clamped only at zero) when the selected
indicator has `invert`, and `r` itself otherwise. -/
theorem C5_intensity_inversion (f : Feature) (ind : IndicatorDetail) (g : Geometry)
    (cs : List JsPrim) (p : FeatureProps) (r : ℚ)
    (hg : f.geometry = some g) (hcs : g.coordinates = some cs)
    (hp : f.properties = some p) (hk : keepFeature f = true)
    (hr : jsParseFloat p.value = JsNum.fin r) :
    processHeatmapFeatures [f] (some ind) =
      [(cs.getD 1 JsPrim.undef, cs.getD 0 JsPrim.undef,
        if ind.invert then JsNum.fin (max 0 (100 - r)) else JsNum.fin r)] := by
  rw [processHeatmap_singleton f (some ind) hk]
  simp only [emitSample, coordAt, hg, hcs, Feature.valueOpt, hp, Option.getD_some,
    emitIntensity, hr]
  by_cases hi : ind.invert
  · simp [hi, JsNum.sub, jsMax0]
  · simp [hi]

/-- Witness for C5: with `invert`, a raw value of 30 emits intensity 70
and an out-of-range raw value of 120 emits intensity 0, not a negative
number. -/
theorem C5_intensity_inversion_witness :
    processHeatmapFeatures
      [{ geometry := some { coordinates := some [JsPrim.num 1, JsPrim.num 2] },
         properties := some { value := JsPrim.num 30 } }]
      (some { key := "k", label := "l", invert := true }) =
      [(JsPrim.num 2, JsPrim.num 1, JsNum.fin 70)] ∧
    processHeatmapFeatures
      [{ geometry := some { coordinates := some [JsPrim.num 1, JsPrim.num 2] },
         properties := some { value := JsPrim.num 120 } }]
      (some { key := "k", label := "l", invert := true }) =
      [(JsPrim.num 2, JsPrim.num 1, JsNum.fin 0)] := by
  constructor
  · rw [C5_intensity_inversion
      { geometry := some { coordinates := some [JsPrim.num 1, JsPrim.num 2] },
        properties := some { value := JsPrim.num 30 } }
      { key := "k", label := "l", invert := true }
      { coordinates := some [JsPrim.num 1, JsPrim.num 2] }
      [JsPrim.num 1, JsPrim.num 2] { value := JsPrim.num 30 } 30 rfl rfl rfl (by decide)
      rfl]
    norm_num [List.getD]
  · rw [C5_intensity_inversion
      { geometry := some { coordinates := some [JsPrim.num 1, JsPrim.num 2] },
        properties := some { value := JsPrim.num 120 } }
      { key := "k", label := "l", invert := true }
      { coordinates := some [JsPrim.num 1, JsPrim.num 2] }
      [JsPrim.num 1, JsPrim.num 2] { value := JsPrim.num 120 } 120 rfl rfl rfl (by decide)
      rfl]
    norm_num [List.getD]

/-- C6: a retained feature whose coordinate array starts `[lng, lat, ...]`
is emitted with the pair reversed: `(lat, lng, intensity)`. -/
theorem C6_coordinate_order (f : Feature) (ind : Option IndicatorDetail) (g : Geometry)
    (lng lat : JsPrim) (rest : List JsPrim) (p : FeatureProps)
    (hg : f.geometry = some g) (hcs : g.coordinates = some (lng :: lat :: rest))
    (hp : f.properties = some p) (hk : keepFeature f = true) :
    processHeatmapFeatures [f] ind =
      [(lat, lng, emitIntensity ind (jsParseFloat p.value))] := by
  rw [processHeatmap_singleton f ind hk]
  simp only [emitSample, coordAt, hg, hcs, Feature.valueOpt, hp, Option.getD_some,
    List.getD_cons_succ, List.getD_cons_zero]

/-- Witness for C6: source coordinates `[79.74, 15.91]` are emitted as the
pair `(15.91, 79.74)`. -/
theorem C6_coordinate_order_witness :
    processHeatmapFeatures
      [{ geometry := some { coordinates := some [JsPrim.num 79.74, JsPrim.num 15.91] },
         properties := some { value := JsPrim.num 1 } }] none =
      [(JsPrim.num 15.91, JsPrim.num 79.74, JsNum.fin 1)] := by
  rw [C6_coordinate_order _ none _ (JsPrim.num 79.74) (JsPrim.num 15.91) [] _ rfl rfl rfl
    (by decide)]
  rfl

/-- C7 counterexample: a well-formed feature with the negative value -5
(and no inversion) is emitted with intensity -5 < 0, violating the claimed
`intensity ≥ 0` invariant of `HeatSample`. -/
theorem C7_counterexample :
    processHeatmapFeatures [negativeValueFeature] none =
      [(JsPrim.num 0, JsPrim.num 0, JsNum.fin (-5))] ∧
    ((-5 : ℚ) < 0) := by
  constructor
  · rw [processHeatmap_singleton _ _ (by decide)]
    rfl
  · norm_num

/-- C7 as amended: latitude and longitude are copied unvalidated from the
source coordinates (no range guarantee), and the intensity of every
emitted sample is non-negative when the selected indicator has `invert`
set (without inversion a negative raw value passes through). -/
theorem C7_amended_intensity_nonneg (features : List Feature) (ind : IndicatorDetail)
    (hinv : ind.invert = true) (s : JsPrim × JsPrim × JsNum)
    (hs : s ∈ processHeatmapFeatures features (some ind)) :
    s.2.2.nonnegB = true := by
  rw [processHeatmapFeatures] at hs
  obtain ⟨f, hf, rfl⟩ := List.mem_map.mp hs
  have hk : keepFeature f = true := (List.mem_filter.mp hf).2
  obtain ⟨p, hp⟩ : ∃ p, f.properties = some p := by
    cases hfp : f.properties with
    | some p => exact ⟨p, rfl⟩
    | none => exact absurd hk (by simp [keepFeature, hfp])
  have hnan := keepFeature_parse_not_nan f p hp hk
  simp only [emitSample, Feature.valueOpt, hp, Option.getD_some]
  exact emitIntensity_invert_nonneg ind hinv _ hnan

/-- Witness for C7 as amended: the sample emitted from a value of 30 under
an inverted indicator has intensity 70 ≥ 0. -/
theorem C7_amended_intensity_nonneg_witness : (JsNum.fin 70).nonnegB = true := by
  have hlist : processHeatmapFeatures
      [{ geometry := some { coordinates := some [JsPrim.num 0, JsPrim.num 1] },
         properties := some { value := JsPrim.num 30 } }]
      (some { key := "k", label := "l", invert := true }) =
      [(JsPrim.num 1, JsPrim.num 0, JsNum.fin 70)] := by
    rw [processHeatmap_singleton _ _ (by decide)]
    simp [emitSample, coordAt, Feature.valueOpt, emitIntensity, jsParseFloat, JsNum.sub,
      jsMax0, List.getD]
    norm_num
  exact C7_amended_intensity_nonneg _ { key := "k", label := "l", invert := true } rfl
    (JsPrim.num 1, JsPrim.num 0, JsNum.fin 70) (by rw [hlist]; exact List.mem_singleton.mpr rfl)

/-- C8: each `addItem` branch appends the draft (with the generated
temporary id) exactly when the draft's name is a non-empty string and is a
no-op otherwise, and `removeItem` removes the element at the index when it
is in range and is a no-op for out-of-range indices. -/
theorem C8_add_remove_entries :
    (∀ (staffList : List StaffEntry) (draft : StaffEntry) (now : ℕ), draft.name = "" →
        addStaffItem staffList draft now = staffList) ∧
    (∀ (staffList : List StaffEntry) (draft : StaffEntry) (now : ℕ), draft.name ≠ "" →
        addStaffItem staffList draft now =
          staffList ++ [{ draft with id := some (tempId now) }]) ∧
    (∀ (medicineList : List MedicineEntry) (draft : MedicineEntry) (now : ℕ),
        draft.name = "" → addMedicineItem medicineList draft now = medicineList) ∧
    (∀ (medicineList : List MedicineEntry) (draft : MedicineEntry) (now : ℕ),
        draft.name ≠ "" → addMedicineItem medicineList draft now =
          medicineList ++ [{ draft with id := some (tempId now) }]) ∧
    (∀ (equipmentList : List EquipmentEntry) (draft : EquipmentEntry) (now : ℕ),
        draft.name = "" → addEquipmentItem equipmentList draft now = equipmentList) ∧
    (∀ (equipmentList : List EquipmentEntry) (draft : EquipmentEntry) (now : ℕ),
        draft.name ≠ "" → addEquipmentItem equipmentList draft now =
          equipmentList ++ [{ draft with id := some (tempId now) }]) ∧
    (∀ (α : Type) (l : List α) (i : ℕ), i < l.length → removeItem l i = l.eraseIdx i) ∧
    (∀ (α : Type) (l : List α) (i : ℕ), l.length ≤ i → removeItem l i = l) := by
  refine ⟨?_, ?_, ?_, ?_, ?_, ?_, ?_, ?_⟩
  · intro l d now h; simp [addStaffItem, h]
  · intro l d now h; simp [addStaffItem, h]
  · intro l d now h; simp [addMedicineItem, h]
  · intro l d now h; simp [addMedicineItem, h]
  · intro l d now h; simp [addEquipmentItem, h]
  · intro l d now h; simp [addEquipmentItem, h]
  · intro α l i h; exact removeItem_in_range l i h
  · intro α l i h; exact removeItem_out_of_range l i h

/-- Witness for C8: adding a draft staff entry with an empty name leaves
the list unchanged, and removing index 5 from a two-element list leaves it
unchanged. -/
theorem C8_add_remove_entries_witness :
    addStaffItem []
      { name := "", role := "", origin := "", contact := "", notes := "" } 7 = [] ∧
    removeItem ([10, 20] : List ℕ) 5 = [10, 20] :=
  ⟨C8_add_remove_entries.1 [] _ 7 rfl,
    C8_add_remove_entries.2.2.2.2.2.2.2 ℕ [10, 20] 5 (by norm_num)⟩
